import Mathlib

/-!
# Verification of the contract-valuation engine

A shallow embedding, over exact rationals, of the valuation engine in
`src/components/screens/EstimatedValue.tsx` (the `calculations` memo and its
helpers).  JavaScript numbers are modelled by `ℚ`; the few places where IEEE
non-finite values (`NaN`) can arise are modelled explicitly with `Option ℚ`
(`none` = not-a-number) in dedicated definitions.  `Math.round` is
`fun q => ⌊q + 1/2⌋` (round half toward positive infinity), `Math.max`/`Math.min`
are `max`/`min`, and the JavaScript `||` on numbers is `jsOr` (falls through on
`0`; on `undefined` it is `Option.getD`).
-/

/-- JavaScript `Math.round`: round half toward positive infinity. -/
def jround (q : ℚ) : ℤ := ⌊q + 1/2⌋

/-- Clamping pattern `Math.max(lo, Math.min(hi, x))` used throughout the engine. -/
def jsClamp (lo hi x : ℚ) : ℚ := max lo (min hi x)

/-- JavaScript `a || b` on two numbers: `b` when `a` is falsy (`0`), else `a`. -/
def jsOr (a b : ℚ) : ℚ := if a = 0 then b else a

/-- The named numeric fields of a `PlayerStats` snapshot that the engine reads. -/
inductive StatField
  | RBI | HRperPA | OPS | wRCplus | BBpct | Kpct | PA | WAR | xwOBA | xSLG
  | BarrelPerPA | EV50 | fgDef | fgBsR
  | ERA | FIP | xFIP | Kper9 | BBper9 | WHIP | IP
  | age
  deriving DecidableEq, Fintype

/-- A statistical snapshot with every field present (the generic case: the data
layer builds snapshots with numeric defaults).  Missing/`undefined` fields are
modelled separately by `OptStats`. -/
def Stats : Type := StatField → ℚ

/-- A comparable player as consumed by the engine: contract facts plus the
trailing-three-year snapshot and the optional pre-signing snapshot. -/
structure Player where
  AAV : ℚ
  years : ℚ
  signedYear : Option ℤ
  threeYearStats : Stats
  threeYearContractStats : Option Stats

/-- The keys of `STAT_CONFIG` and `PITCHER_STAT_CONFIG` (`fg_WAR` is shared). -/
inductive ConfigKey
  | fgRBI | fgHR | fgOPS | fgWRCplus | fgBBpct | fgKpct | fgPA | fgWAR
  | fgXwOBA | fgXSLG | scEVbrlPa | scEVev50 | fgDef | fgBsR
  | fgERA | fgFIP | fgXFIP | fgKper9 | fgBBper9 | fgWHIP | fgIP
  deriving DecidableEq, Fintype

open ConfigKey StatField in
/-- Table `STAT_KEY_MAP`: config key to `PlayerStats` field.  `fg_HR` maps to the
special marker `'HR'` in the source; the special-casing is done by `isHRKey`
before this map is consulted, and `fgHR` reads `HRperPA` there. -/
def keyMap : ConfigKey → StatField
  | fgRBI => RBI
  | fgHR => HRperPA
  | fgOPS => OPS
  | fgWRCplus => wRCplus
  | fgBBpct => BBpct
  | fgKpct => Kpct
  | fgPA => PA
  | fgWAR => WAR
  | fgXwOBA => xwOBA
  | fgXSLG => xSLG
  | scEVbrlPa => BarrelPerPA
  | scEVev50 => EV50
  | ConfigKey.fgDef => StatField.fgDef
  | ConfigKey.fgBsR => StatField.fgBsR
  | fgERA => ERA
  | fgFIP => FIP
  | fgXFIP => xFIP
  | fgKper9 => Kper9
  | fgBBper9 => BBper9
  | fgWHIP => WHIP
  | fgIP => IP

/-- Test `statKey === 'HR'`: the home-run special case marker. -/
def isHRKey (k : ConfigKey) : Bool := k = ConfigKey.fgHR

open ConfigKey in
/-- Column `config.higherBetter` from `STAT_CONFIG`/`PITCHER_STAT_CONFIG` (the two
tables agree on the shared key `fg_WAR`). -/
def higherBetter : ConfigKey → Bool
  | fgKpct => false
  | fgERA => false
  | fgFIP => false
  | fgXFIP => false
  | fgBBper9 => false
  | fgWHIP => false
  | _ => true

open ConfigKey in
/-- Keys of `Object.entries(STAT_CONFIG)` in insertion order. -/
def hitterKeys : List ConfigKey :=
  [fgRBI, fgHR, fgOPS, fgWRCplus, fgBBpct, fgKpct, fgPA, fgWAR,
   fgXwOBA, fgXSLG, scEVbrlPa, scEVev50, ConfigKey.fgDef, ConfigKey.fgBsR]

open ConfigKey in
/-- Keys of `Object.entries(PITCHER_STAT_CONFIG)` in insertion order. -/
def pitcherKeys : List ConfigKey :=
  [fgERA, fgFIP, fgXFIP, fgKper9, fgBBper9, fgWHIP, fgIP, fgWAR]

/-- Selection `activeStatConfig`: the key set selected by the pitcher/hitter branch. -/
def activeKeys (isPitcherPlayer : Bool) : List ConfigKey :=
  if isPitcherPlayer then pitcherKeys else hitterKeys

/-- The first key of the active configuration (its weight heads every running
weight total in the impact loop). -/
def firstKey (isPitcherPlayer : Bool) : ConfigKey :=
  if isPitcherPlayer then ConfigKey.fgERA else ConfigKey.fgRBI

/-- Snapshot choice `c.threeYearContractStats || c.threeYearStats` (objects are truthy). -/
def statsOf (c : Player) : Stats := c.threeYearContractStats.getD c.threeYearStats

/-- Line 471: `(c.threeYearContractStats?.age) || (c.threeYearStats.age)`.
`?.` yields `undefined` (falsy) when the snapshot is absent, and `||` also
falls through when the stored age is `0`. -/
def ageAtSigning (c : Player) : ℚ :=
  match c.threeYearContractStats with
  | none => c.threeYearStats StatField.age
  | some s => jsOr (s StatField.age) (c.threeYearStats StatField.age)

/-- The fixed reference year (`const presentYear = 2025`). -/
def presentYear : ℤ := 2025

/-- Line 454: `Math.max(0, inflationPercent) / 100`. -/
def inflationRate (inflationPercent : ℚ) : ℚ := max 0 inflationPercent / 100

/-- Line 457: `signedYear ? Math.max(0, presentYear - signedYear) : 0`.
An absent `signedYear` is falsy, and so is a stored `0`. -/
def yearsSinceSigning (c : Player) : ℕ :=
  match c.signedYear with
  | none => 0
  | some y => if y = 0 then 0 else (max 0 (presentYear - y)).toNat

/-- Lines 455–460: one comp's inflation-adjusted AAV. -/
def adjustedAAV (inflationPercent : ℚ) (c : Player) : ℚ :=
  c.AAV * (1 + inflationRate inflationPercent) ^ yearsSinceSigning c

/-- Arithmetic mean of a list (reduce-sum divided by length). -/
def listMean (l : List ℚ) : ℚ := l.sum / l.length

/-- Line 461: mean of the inflation-adjusted AAVs. -/
def baselineAAV (inflationPercent : ℚ) (comps : List Player) : ℚ :=
  listMean (comps.map (adjustedAAV inflationPercent))

/-- Line 467: mean of the contract-year counts. -/
def baselineYears (comps : List Player) : ℚ := listMean (comps.map Player.years)

/-- Lines 470–473: mean age at signing, `|| PETE_STATS.age` when that mean is
falsy (`0`; in the source also `NaN`, unreachable for a non-empty cohort). -/
def cohortSigningAge (comps : List Player) (subjectAge : ℚ) : ℚ :=
  jsOr (listMean (comps.map ageAtSigning)) subjectAge

/-- Lines 476–493: the cohort's averaged statistical profile.  The home-run
count is `Math.round(s.HRperPA || 0)` per comp (the `isNaN` guard on the mean
cannot fire for a non-empty cohort of present fields); every other field is
read with `|| 0`, the identity on present numeric values. -/
def cohortStat (comps : List Player) (k : ConfigKey) : ℚ :=
  if isHRKey k then
    listMean (comps.map (fun c => (jround (statsOf c StatField.HRperPA) : ℚ)))
  else
    listMean (comps.map (fun c => statsOf c (keyMap k)))

/-- Lines 498–507 for the subject: the home-run value is
`Math.round(PETE_STATS.HRperPA)`, everything else `PETE_STATS[statKey] || 0`
(the identity on a present numeric value). -/
def peteValue (subject : Stats) (k : ConfigKey) : ℚ :=
  if isHRKey k then (jround (subject StatField.HRperPA) : ℚ)
  else subject (keyMap k)

/-- Lines 511–521: bounded percentage difference. -/
def pctDiff (delta cohortValue : ℚ) : ℚ :=
  if |cohortValue| < 1/1000 then
    (if 0 < delta then 1 else if delta < 0 then -1 else 0) * min 500 |delta * 100|
  else
    jsClamp (-500) 500 (delta / |cohortValue| * 100)

/-- Lines 523–552: the three-way ratio computation.  The `fg_Def`/`fg_BsR`
branch is checked first; then `higherBetter` with the near-zero denominator
guard; the symmetric lower-is-better branch guards on the subject value. -/
def ratioOf (k : ConfigKey) (pete cohortValue : ℚ) : ℚ :=
  if k = ConfigKey.fgDef ∨ k = ConfigKey.fgBsR then
    jsClamp (1/2) 2 (1 + ((pete - cohortValue) / 10) * (2/10))
  else if higherBetter k then
    jsClamp (1/10) 10
      (if |cohortValue| < 1/1000 then
        (if 0 < pete then 11/10 else if pete < 0 then 9/10 else 1)
       else pete / cohortValue)
  else
    jsClamp (1/10) 10
      (if |pete| < 1/1000 then
        (if 0 < cohortValue then 11/10 else if cohortValue < 0 then 9/10 else 1)
       else cohortValue / pete)

/-- One row of `statComparisons` (lines 554–563). -/
structure Comparison where
  key : ConfigKey
  peteValue : ℚ
  cohortValue : ℚ
  ratio : ℚ
  delta : ℚ
  pctDiff : ℚ
  weight : ℚ
  deriving DecidableEq

/-- Lines 496–564: one comparison row for one config key. -/
def mkComparison (subject : Stats) (comps : List Player)
    (weights : ConfigKey → ℚ) (k : ConfigKey) : Comparison :=
  let pv := peteValue subject k
  let cv := cohortStat comps k
  { key := k
    peteValue := pv
    cohortValue := cv
    ratio := ratioOf k pv cv
    delta := pv - cv
    pctDiff := pctDiff (pv - cv) cv
    weight := weights k }

/-- Rows of `statComparisons`: one row per key of the active configuration. -/
def statComparisons (subject : Stats) (isPitcherPlayer : Bool)
    (comps : List Player) (weights : ConfigKey → ℚ) : List Comparison :=
  (activeKeys isPitcherPlayer).map (mkComparison subject comps weights)

/-- A `statImpacts` row (lines 570–584): the comparison spread together with
its contribution and naive dollar impact. -/
structure Impact where
  comp : Comparison
  contribution : ℚ
  aavImpact : ℚ
  deriving DecidableEq

/-- Lines 567–584: the impact loop.  `totalWeight` is mutated inside the
`.map` callback, so each row divides by the RUNNING total of the weights up to
and including that row; `W0` carries the running total into the recursion
(`W0 = 0` at the top-level call). -/
def naiveImpacts (B : ℚ) (W0 : ℚ) : List Comparison → List Impact
  | [] => []
  | c :: rest =>
      let contribution := (c.ratio - 1) * c.weight
      let W := W0 + c.weight
      { comp := c, contribution := contribution, aavImpact := B * contribution / W }
        :: naiveImpacts B W rest

/-- The final `weightedSum` accumulated by the impact loop. -/
def weightedSum (cs : List Comparison) : ℚ := (cs.map (fun c => c.ratio * c.weight)).sum

/-- The final `totalWeight` accumulated by the impact loop. -/
def totalWeight (cs : List Comparison) : ℚ := (cs.map Comparison.weight).sum

/-- Line 586: `weightedSum / totalWeight`. -/
def rawMultiplier (cs : List Comparison) : ℚ := weightedSum cs / totalWeight cs

/-- Lines 590–591: sensitivity amplification, `1 + (raw − 1) × 1.4`. -/
def scaledMultiplier (cs : List Comparison) : ℚ :=
  1 + (rawMultiplier cs - 1) * (14/10)

/-- Line 594: clamp to `[0.50, 2.0]` when AAV adjustment is on, else `1.0`. -/
def aavMultiplier (adjustAAV : Bool) (cs : List Comparison) : ℚ :=
  if adjustAAV then jsClamp (1/2) 2 (scaledMultiplier cs) else 1

/-- Sum of the `aavImpact` column (line 599). -/
def rawImpactSum (l : List Impact) : ℚ := (l.map Impact.aavImpact).sum

/-- Line 601: `rawImpactSum !== 0 ? actualDifference / rawImpactSum : 1`. -/
def impactScale (actualDifference rawSum : ℚ) : ℚ :=
  if rawSum ≠ 0 then actualDifference / rawSum else 1

/-- Lines 604–607: rescale each naive impact by the single factor. -/
def scaleImpacts (scale : ℚ) (l : List Impact) : List Impact :=
  l.map (fun i => { i with aavImpact := i.aavImpact * scale })

/-- Lines 622–633: the quadratic age penalty (pitcher vs hitter constants). -/
def penaltyComponent (isPitcherPlayer : Bool) (olderDelta : ℚ) : ℚ :=
  if isPitcherPlayer then (3/100) * olderDelta + (5/1000) * olderDelta * olderDelta
  else (5/100) * olderDelta + (10/1000) * olderDelta * olderDelta

/-- Lines 622–633: the quadratic age benefit (pitcher vs hitter constants). -/
def benefitComponent (isPitcherPlayer : Bool) (youngerDelta : ℚ) : ℚ :=
  if isPitcherPlayer then (5/100) * youngerDelta - (2/1000) * youngerDelta * youngerDelta
  else (3/100) * youngerDelta - (5/1000) * youngerDelta * youngerDelta

/-- Line 635: `1 − penalty + benefit` from the age delta. -/
def rawAgeMultiplier (isPitcherPlayer : Bool) (ageDelta : ℚ) : ℚ :=
  1 - penaltyComponent isPitcherPlayer (max 0 ageDelta)
    + benefitComponent isPitcherPlayer (max 0 (-ageDelta))

/-- Line 639: `age <= 25 && aavMultiplier >= 1.15`. -/
def isVeryYoungHighPerformer (subjectAge mult : ℚ) : Bool :=
  decide (subjectAge ≤ 25 ∧ 115/100 ≤ mult)

/-- Lines 641–650: boosted clamp for young elite performers, else standard. -/
def ageMultiplier (young : Bool) (raw : ℚ) : ℚ :=
  if young then jsClamp (6/10) (18/10) (raw * (115/100))
  else jsClamp (6/10) (15/10) raw

/-- Lines 654–665: absolute age penalty (pitchers from 33, hitters from 31). -/
def absoluteAgePenalty (isPitcherPlayer : Bool) (age : ℚ) : ℚ :=
  if isPitcherPlayer then
    if 33 ≤ age then min (15/10) ((age - 32) * (15/100)) else 0
  else
    if 31 ≤ age then min 2 ((age - 30) * (25/100)) else 0

/-- Lines 670–672: performance-linked years adjustment, clamped to ±1.5. -/
def performanceAdjustment (isPitcherPlayer : Bool) (youngerDelta mult : ℚ) : ℚ :=
  jsClamp (-(15/10)) (15/10)
    ((mult - 1) * (if isPitcherPlayer ∧ 0 < youngerDelta then 11/4 else 18/10))

/-- Lines 674–676: the total years adjustment, forced to `0` when the
adjust-years toggle is off. -/
def totalYearsAdjustment (adjustYears : Bool)
    (bYears ageMult absPenalty perfAdj : ℚ) : ℚ :=
  if adjustYears then (bYears * ageMult - bYears) - absPenalty + perfAdj else 0

/-- Lines 678–683: soft cap and rounding to the nearest half year, floor 1. -/
def fairYears (young : Bool) (bYears tya : ℚ) : ℚ :=
  let softCapLimit : ℚ := if young then 5 else 2
  let proposedYears := bYears + tya
  let cappedYears := min (bYears + softCapLimit) proposedYears
  max 1 ((jround (cappedYears * 2) : ℚ) / 2)

/-- The fields of the `calculations` result common to both branches (the empty
branch of lines 438–450 returns exactly these; the non-empty branch returns
these plus further diagnostic fields that no claim mentions). -/
structure CalcResult where
  baselineAAV : ℚ
  baselineYears : ℚ
  fairAAV : ℚ
  fairYears : ℚ
  aavMultiplier : ℚ
  yearsAdjustment : ℚ
  cohortStats : ConfigKey → ℚ
  statComparisons : List Comparison
  statImpacts : List Impact

/-- Lines 435–707: the full valuation.  Empty cohort: the all-zero/neutral
default object of lines 438–450 (whose `cohortStats` is `{}`, every field of
which reads back as `0` through the engine's `|| 0` accesses).  Non-empty:
the formula chain.  The function is total: no exception is raised on any
input. -/
def calculations (subject : Stats) (isPitcherPlayer : Bool)
    (comps : List Player) (weights : ConfigKey → ℚ)
    (adjustAAV adjustYears : Bool) (inflationPercent : ℚ) : CalcResult :=
  if comps.isEmpty then
    { baselineAAV := 0, baselineYears := 0, fairAAV := 0, fairYears := 0
      aavMultiplier := 1, yearsAdjustment := 0, cohortStats := fun _ => 0
      statComparisons := [], statImpacts := [] }
  else
    let cs := statComparisons subject isPitcherPlayer comps weights
    let B := baselineAAV inflationPercent comps
    let bY := baselineYears comps
    let mult := aavMultiplier adjustAAV cs
    let fair := B * mult
    let naive := naiveImpacts B 0 cs
    let scale := impactScale (fair - B) (rawImpactSum naive)
    let subjectAge := subject StatField.age
    let cohortAge := cohortSigningAge comps subjectAge
    let ageDelta := subjectAge - cohortAge
    let young := isVeryYoungHighPerformer subjectAge mult
    let ageMult := ageMultiplier young (rawAgeMultiplier isPitcherPlayer ageDelta)
    let absPen := absoluteAgePenalty isPitcherPlayer subjectAge
    let perfAdj := performanceAdjustment isPitcherPlayer (max 0 (-ageDelta)) mult
    let tya := totalYearsAdjustment adjustYears bY ageMult absPen perfAdj
    { baselineAAV := B, baselineYears := bY, fairAAV := fair
      fairYears := fairYears young bY tya
      aavMultiplier := mult, yearsAdjustment := tya
      cohortStats := cohortStat comps
      statComparisons := cs
      statImpacts := scaleImpacts scale naive }

/-! ## IEEE-semantics model of the multiplier chain

In the source all arithmetic is on IEEE doubles.  For a non-empty cohort with
every statistical field present, no non-finite value can arise anywhere in the
chain except in the divisions by (running) weight totals.  `jsAavMultiplier`
models lines 586–594 including the non-finite cases: when `totalWeight = 0`
and `weightedSum = 0` (with the slider-constrained non-negative weights the
only reachable case), `0/0` is `NaN`, `Math.min`/`Math.max` propagate it, and
the result is `NaN`, modelled as `none`; when `totalWeight = 0` but
`weightedSum ≠ 0` the quotient is `±Infinity` and the clamp returns the
corresponding bound. -/

/-- Lines 586–594 under IEEE semantics; `none` models `NaN`. -/
def jsAavMultiplier (adjustAAV : Bool) (cs : List Comparison) : Option ℚ :=
  if adjustAAV then
    if totalWeight cs = 0 then
      if weightedSum cs = 0 then none
      else some (if 0 < weightedSum cs then 2 else 1/2)
    else some (jsClamp (1/2) 2 (scaledMultiplier cs))
  else some 1

/-- Coherence of the two models: whenever the total weight is non-zero the
IEEE model returns exactly the rational model's multiplier. -/
lemma jsAavMultiplier_total (adjustAAV : Bool) (cs : List Comparison)
    (h : totalWeight cs ≠ 0) :
    jsAavMultiplier adjustAAV cs = some (aavMultiplier adjustAAV cs) := by
  cases adjustAAV <;> simp [jsAavMultiplier, aavMultiplier, h]

/-! ## Missing statistical fields

A snapshot with possibly missing (`undefined`) fields.  `peteValueFetch` and
`cohortStatFetch` embed the value fetches of lines 496–507 and 480–491 over
such snapshots: `undefined || 0` is `0` (`Option.getD`), while
`Math.round(undefined)` is `NaN` (modelled `none`). -/

/-- A statistical snapshot whose fields can be missing (`none` = `undefined`). -/
def OptStats : Type := StatField → Option ℚ

/-- Lines 498–507, the subject-side fetch: all keys are read with `|| 0`
except the home-run special case, which is `Math.round(PETE_STATS.HRperPA)`
with no default (`none` = `NaN` when the field is missing). -/
def peteValueFetch (subject : OptStats) (k : ConfigKey) : Option ℚ :=
  if isHRKey k then (subject StatField.HRperPA).map (fun q => (jround q : ℚ))
  else some ((subject (keyMap k)).getD 0)

/-- Lines 480–491, the cohort-side aggregation over the chosen snapshots:
both the home-run read (`Math.round(s.HRperPA || 0)`) and every other field
(`s[statKey] || 0`) default a missing value to `0`. -/
def cohortStatFetch (ss : List OptStats) (k : ConfigKey) : ℚ :=
  if isHRKey k then
    listMean (ss.map (fun s => (jround ((s StatField.HRperPA).getD 0) : ℚ)))
  else
    listMean (ss.map (fun s => (s (keyMap k)).getD 0))

/-- Coherence: on a snapshot with every field present the fetch model agrees
with the total model's `peteValue`. -/
lemma peteValueFetch_total (P : Stats) (k : ConfigKey) :
    peteValueFetch (fun f => some (P f)) k = some (peteValue P k) := by
  by_cases h : isHRKey k <;> simp [peteValueFetch, peteValue, h]

/-- Naive per-stat impact as the spec words it: `baselineAAV × ((ratio−1)×weight)
/ Σweight` with `Σweight` the total of all stats' weights, the same denominator
for every stat.  Stated for comparison against the source's `naiveImpacts`. -/
def specNaiveImpact (B ratioV weightV totalW : ℚ) : ℚ :=
  B * ((ratioV - 1) * weightV) / totalW

/-- Exponent of the inflation factor as the claim words it:
`max(0, presentYear − signedYear)`, and `0` when `signedYear` is absent. -/
def specExponent (c : Player) : ℕ :=
  match c.signedYear with
  | none => 0
  | some y => (max 0 (presentYear - y)).toNat

/-! ## General lemmas -/

lemma le_jsClamp (lo hi x : ℚ) : lo ≤ jsClamp lo hi x := le_max_left _ _

lemma jsClamp_le (lo hi x : ℚ) (h : lo ≤ hi) : jsClamp lo hi x ≤ hi :=
  max_le h (min_le_left _ _)

lemma mkComparison_weight (subject : Stats) (comps : List Player)
    (weights : ConfigKey → ℚ) (k : ConfigKey) :
    (mkComparison subject comps weights k).weight = weights k := rfl

lemma rawImpactSum_scaleImpacts (s : ℚ) (l : List Impact) :
    rawImpactSum (scaleImpacts s l) = rawImpactSum l * s := by
  induction l with
  | nil => simp [rawImpactSum, scaleImpacts]
  | cons i t ih =>
    simp only [scaleImpacts, List.map_cons, rawImpactSum, List.sum_cons] at ih ⊢
    rw [ih]; ring

lemma scaleImpacts_one (l : List Impact) : scaleImpacts 1 l = l := by
  induction l with
  | nil => rfl
  | cons i t ih =>
    cases i
    simp only [scaleImpacts, List.map_cons, mul_one] at ih ⊢
    rw [ih]

lemma naiveImpacts_getD (B : ℚ) (cs : List Comparison) :
    ∀ (W0 : ℚ) (i : ℕ), i < cs.length →
    ((naiveImpacts B W0 cs).map Impact.aavImpact).getD i 0
      = B * (((cs.map Comparison.ratio).getD i 0 - 1)
              * ((cs.map Comparison.weight).getD i 0))
        / (W0 + ((cs.take (i + 1)).map Comparison.weight).sum) := by
  induction cs with
  | nil => intro W0 i h; simp at h
  | cons c t ih =>
    intro W0 i h
    cases i with
    | zero =>
      simp [naiveImpacts, List.take, add_zero]
    | succ i =>
      simp only [naiveImpacts, List.map_cons, List.getD_cons_succ,
        List.take_succ_cons, List.sum_cons]
      rw [ih (W0 + c.weight) i (by simpa using h), add_assoc]

/-- The empty branch of `calculations` (lines 438–450) as a record equation. -/
lemma calculations_nil (s : Stats) (pt : Bool) (w : ConfigKey → ℚ)
    (a y : Bool) (infl : ℚ) :
    calculations s pt [] w a y infl
      = { baselineAAV := 0, baselineYears := 0, fairAAV := 0, fairYears := 0
          aavMultiplier := 1, yearsAdjustment := 0, cohortStats := fun _ => 0
          statComparisons := [], statImpacts := [] } := rfl

lemma calc_baselineAAV_cons (s : Stats) (pt : Bool) (c : Player) (t : List Player)
    (w : ConfigKey → ℚ) (a y : Bool) (infl : ℚ) :
    (calculations s pt (c :: t) w a y infl).baselineAAV = baselineAAV infl (c :: t) := rfl

lemma calc_baselineYears_cons (s : Stats) (pt : Bool) (c : Player) (t : List Player)
    (w : ConfigKey → ℚ) (a y : Bool) (infl : ℚ) :
    (calculations s pt (c :: t) w a y infl).baselineYears = baselineYears (c :: t) := rfl

lemma calc_statComparisons_cons (s : Stats) (pt : Bool) (c : Player) (t : List Player)
    (w : ConfigKey → ℚ) (a y : Bool) (infl : ℚ) :
    (calculations s pt (c :: t) w a y infl).statComparisons
      = statComparisons s pt (c :: t) w := rfl

lemma calc_mult_cons (s : Stats) (pt : Bool) (c : Player) (t : List Player)
    (w : ConfigKey → ℚ) (a y : Bool) (infl : ℚ) :
    (calculations s pt (c :: t) w a y infl).aavMultiplier
      = aavMultiplier a (statComparisons s pt (c :: t) w) := rfl

lemma calc_fairAAV_cons (s : Stats) (pt : Bool) (c : Player) (t : List Player)
    (w : ConfigKey → ℚ) (a y : Bool) (infl : ℚ) :
    (calculations s pt (c :: t) w a y infl).fairAAV
      = baselineAAV infl (c :: t) * aavMultiplier a (statComparisons s pt (c :: t) w) := rfl

lemma calc_statImpacts_cons (s : Stats) (pt : Bool) (c : Player) (t : List Player)
    (w : ConfigKey → ℚ) (a y : Bool) (infl : ℚ) :
    (calculations s pt (c :: t) w a y infl).statImpacts
      = scaleImpacts
          (impactScale
            (baselineAAV infl (c :: t) * aavMultiplier a (statComparisons s pt (c :: t) w)
              - baselineAAV infl (c :: t))
            (rawImpactSum (naiveImpacts (baselineAAV infl (c :: t)) 0
              (statComparisons s pt (c :: t) w))))
          (naiveImpacts (baselineAAV infl (c :: t)) 0 (statComparisons s pt (c :: t) w)) := rfl

lemma calc_yearsAdjustment_cons (s : Stats) (pt : Bool) (c : Player) (t : List Player)
    (w : ConfigKey → ℚ) (a y : Bool) (infl : ℚ) :
    (calculations s pt (c :: t) w a y infl).yearsAdjustment
      = totalYearsAdjustment y (baselineYears (c :: t))
          (ageMultiplier
            (isVeryYoungHighPerformer (s StatField.age)
              (aavMultiplier a (statComparisons s pt (c :: t) w)))
            (rawAgeMultiplier pt
              (s StatField.age - cohortSigningAge (c :: t) (s StatField.age))))
          (absoluteAgePenalty pt (s StatField.age))
          (performanceAdjustment pt
            (max 0 (-(s StatField.age - cohortSigningAge (c :: t) (s StatField.age))))
            (aavMultiplier a (statComparisons s pt (c :: t) w))) := rfl

lemma calc_fairYears_cons (s : Stats) (pt : Bool) (c : Player) (t : List Player)
    (w : ConfigKey → ℚ) (a y : Bool) (infl : ℚ) :
    (calculations s pt (c :: t) w a y infl).fairYears
      = fairYears
          (isVeryYoungHighPerformer (s StatField.age)
            (aavMultiplier a (statComparisons s pt (c :: t) w)))
          (baselineYears (c :: t))
          (totalYearsAdjustment y (baselineYears (c :: t))
            (ageMultiplier
              (isVeryYoungHighPerformer (s StatField.age)
                (aavMultiplier a (statComparisons s pt (c :: t) w)))
              (rawAgeMultiplier pt
                (s StatField.age - cohortSigningAge (c :: t) (s StatField.age))))
            (absoluteAgePenalty pt (s StatField.age))
            (performanceAdjustment pt
              (max 0 (-(s StatField.age - cohortSigningAge (c :: t) (s StatField.age))))
              (aavMultiplier a (statComparisons s pt (c :: t) w)))) := rfl

lemma jround_eval (q : ℚ) (n : ℤ) (h1 : (n : ℚ) ≤ q + 1/2) (h2 : q + 1/2 < n + 1) :
    jround q = n := Int.floor_eq_iff.mpr ⟨by exact_mod_cast h1, by exact_mod_cast h2⟩

lemma jround_zero : jround 0 = 0 := jround_eval 0 0 (by norm_num) (by norm_num)

lemma max_one_int_div_two (n : ℤ) : max 1 ((n : ℚ)/2) = ((max 2 n : ℤ) : ℚ)/2 := by
  rcases le_total n 2 with h | h
  · rw [max_eq_left h]
    rw [max_eq_left]
    · norm_num
    · have hq : (n : ℚ) ≤ 2 := by exact_mod_cast h
      linarith
  · rw [max_eq_right h]
    rw [max_eq_right]
    have hq : (2 : ℚ) ≤ (n : ℚ) := by exact_mod_cast h
    linarith

lemma fairYears_ge_one (young : Bool) (bY tya : ℚ) : 1 ≤ fairYears young bY tya :=
  le_max_left _ _

lemma fairYears_half (young : Bool) (bY tya : ℚ) :
    ∃ k : ℤ, fairYears young bY tya = (k : ℚ)/2 :=
  ⟨_, max_one_int_div_two _⟩

lemma fairYears_no_adjust (young : Bool) (bY : ℚ) :
    fairYears young bY 0 = max 1 ((jround (bY * 2) : ℚ) / 2) := by
  cases young <;>
    simp only [fairYears, add_zero, Bool.false_eq_true, if_false, if_true] <;>
    rw [min_eq_right (le_add_of_nonneg_right (by norm_num))]

/-! ## Concrete example inputs

A hitter subject and a one-comp cohort with dyadic-rational statistics, used
for witnesses and counterexamples.  All values are exactly representable as
binary doubles, and every product, quotient and sum evaluated on them below is
exact in IEEE arithmetic as well, so the branch taken by the source at these
inputs is the branch taken by the model. -/

/-- Example subject snapshot: OPS `1.25`, xwOBA `0.625`, RBI `100`, age `30`,
every other field `0`. -/
def exSubject : Stats := fun f =>
  match f with
  | StatField.RBI => 100
  | StatField.OPS => 5/4
  | StatField.xwOBA => 5/8
  | StatField.age => 30
  | _ => 0

/-- Example comp snapshot: OPS `1`, xwOBA `1`, RBI `100`, age `30`. -/
def exCompStats : Stats := fun f =>
  match f with
  | StatField.RBI => 100
  | StatField.OPS => 1
  | StatField.xwOBA => 1
  | StatField.age => 30
  | _ => 0

/-- Example comp: AAV `24`, 6 years, no signing year recorded. -/
def exComp : Player :=
  { AAV := 24, years := 6, signedYear := none
    threeYearStats := exCompStats, threeYearContractStats := none }

/-- Example comp with a zero contract-year count (a comp whose `years` field
was absent in the data loads as `0`). -/
def exCompZeroYears : Player :=
  { AAV := 24, years := 0, signedYear := none
    threeYearStats := exCompStats, threeYearContractStats := none }

/-- The claim's worked example: one comp with AAV `20` signed in `2023`. -/
def exC6comp : Player :=
  { AAV := 20, years := 5, signedYear := some 2023
    threeYearStats := exCompStats, threeYearContractStats := none }

open ConfigKey in
/-- Example weights: `1` on RBI, OPS and xwOBA, `0` elsewhere. -/
def exW : ConfigKey → ℚ := fun k =>
  if k = fgRBI ∨ k = fgOPS ∨ k = fgXwOBA then 1 else 0

open ConfigKey in
/-- Example weights: `1` on RBI and OPS, `0` elsewhere. -/
def exW1 : ConfigKey → ℚ := fun k =>
  if k = fgRBI ∨ k = fgOPS then 1 else 0

/-- A comparison row whose subject and cohort values are both `0` (ratio `1`)
and whose weight is `0`. -/
def zrow (k : ConfigKey) : Comparison :=
  { key := k, peteValue := 0, cohortValue := 0, ratio := 1
    delta := 0, pctDiff := 0, weight := 0 }

open ConfigKey in
lemma exComparisons_exW :
    statComparisons exSubject false [exComp] exW =
      [ { key := fgRBI, peteValue := 100, cohortValue := 100, ratio := 1
          delta := 0, pctDiff := 0, weight := 1 },
        zrow fgHR,
        { key := fgOPS, peteValue := 5/4, cohortValue := 1, ratio := 5/4
          delta := 1/4, pctDiff := 25, weight := 1 },
        zrow fgWRCplus, zrow fgBBpct, zrow fgKpct, zrow fgPA, zrow fgWAR,
        { key := fgXwOBA, peteValue := 5/8, cohortValue := 1, ratio := 5/8
          delta := -(3/8), pctDiff := -(75/2), weight := 1 },
        zrow fgXSLG, zrow scEVbrlPa, zrow scEVev50,
        zrow ConfigKey.fgDef, zrow ConfigKey.fgBsR ] := by
  norm_num +decide [statComparisons, activeKeys, hitterKeys, mkComparison,
    peteValue, cohortStat, isHRKey, keyMap, statsOf, listMean, ratioOf, pctDiff,
    jsClamp, jsOr, jround_zero, exSubject, exCompStats, exComp, exW, zrow]

open ConfigKey in
lemma exComparisons_exW1 :
    statComparisons exSubject false [exComp] exW1 =
      [ { key := fgRBI, peteValue := 100, cohortValue := 100, ratio := 1
          delta := 0, pctDiff := 0, weight := 1 },
        zrow fgHR,
        { key := fgOPS, peteValue := 5/4, cohortValue := 1, ratio := 5/4
          delta := 1/4, pctDiff := 25, weight := 1 },
        zrow fgWRCplus, zrow fgBBpct, zrow fgKpct, zrow fgPA, zrow fgWAR,
        { key := fgXwOBA, peteValue := 5/8, cohortValue := 1, ratio := 5/8
          delta := -(3/8), pctDiff := -(75/2), weight := 0 },
        zrow fgXSLG, zrow scEVbrlPa, zrow scEVev50,
        zrow ConfigKey.fgDef, zrow ConfigKey.fgBsR ] := by
  norm_num +decide [statComparisons, activeKeys, hitterKeys, mkComparison,
    peteValue, cohortStat, isHRKey, keyMap, statsOf, listMean, ratioOf, pctDiff,
    jsClamp, jsOr, jround_zero, exSubject, exCompStats, exComp, exW1, zrow]

lemma baselineAAV_exComp : baselineAAV 0 [exComp] = 24 := by
  norm_num [baselineAAV, adjustedAAV, listMean, inflationRate, yearsSinceSigning, exComp]

lemma baselineYears_exComp : baselineYears [exComp] = 6 := by
  norm_num [baselineYears, listMean, exComp]

lemma baselineYears_zero : baselineYears [exCompZeroYears] = 0 := by
  norm_num [baselineYears, listMean, exCompZeroYears]

lemma naive_exW_sum :
    rawImpactSum (naiveImpacts (baselineAAV 0 [exComp]) 0
      (statComparisons exSubject false [exComp] exW)) = 0 := by
  rw [exComparisons_exW, baselineAAV_exComp]
  norm_num [naiveImpacts, rawImpactSum, zrow]

lemma naive_exW1_sum :
    rawImpactSum (naiveImpacts (baselineAAV 0 [exComp]) 0
      (statComparisons exSubject false [exComp] exW1)) = 3 := by
  rw [exComparisons_exW1, baselineAAV_exComp]
  norm_num [naiveImpacts, rawImpactSum, zrow]

lemma mult_exW :
    aavMultiplier true (statComparisons exSubject false [exComp] exW) = 113/120 := by
  rw [exComparisons_exW]
  norm_num [aavMultiplier, scaledMultiplier, rawMultiplier, weightedSum,
    totalWeight, jsClamp, zrow, min_def, max_def]

lemma tw_exW1 : totalWeight (statComparisons exSubject false [exComp] exW1) = 2 := by
  rw [exComparisons_exW1]
  norm_num [totalWeight, zrow]

lemma tw_exW : totalWeight (statComparisons exSubject false [exComp] exW) = 3 := by
  rw [exComparisons_exW]
  norm_num [totalWeight, zrow]

/-! ## Claims -/

/-- C1 (amended).  For every non-empty cohort and every weight assignment that
is non-negative with a positive weight on the first tracked stat (so that
every running weight total in the impact loop is positive and no division in
the source is `0/0`): whenever the naive impact sum is non-zero, the scaled
per-stat dollar impacts sum exactly to `fairAAV − baselineAAV`; in the
degenerate case where the naive impact sum is `0`, the scale factor is `1` and
the scaled impacts equal the naive impacts — so their sum is `0`, which can
differ from `fairAAV − baselineAAV`. -/
theorem C1_scaled_impact_sum (subject : Stats) (pt : Bool) (comps : List Player)
    (weights : ConfigKey → ℚ) (adjAAV adjYears : Bool) (infl : ℚ)
    (hne : comps ≠ []) (hw : ∀ k, 0 ≤ weights k) (h1 : 0 < weights (firstKey pt)) :
    (rawImpactSum (naiveImpacts (baselineAAV infl comps) 0
        (statComparisons subject pt comps weights)) ≠ 0 →
      rawImpactSum (calculations subject pt comps weights adjAAV adjYears infl).statImpacts
        = (calculations subject pt comps weights adjAAV adjYears infl).fairAAV
          - (calculations subject pt comps weights adjAAV adjYears infl).baselineAAV)
    ∧ (rawImpactSum (naiveImpacts (baselineAAV infl comps) 0
        (statComparisons subject pt comps weights)) = 0 →
      impactScale
          ((calculations subject pt comps weights adjAAV adjYears infl).fairAAV
            - (calculations subject pt comps weights adjAAV adjYears infl).baselineAAV)
          (rawImpactSum (naiveImpacts (baselineAAV infl comps) 0
            (statComparisons subject pt comps weights))) = 1
      ∧ (calculations subject pt comps weights adjAAV adjYears infl).statImpacts
          = naiveImpacts (baselineAAV infl comps) 0
              (statComparisons subject pt comps weights)) := by
  obtain ⟨c, t, rfl⟩ := List.exists_cons_of_ne_nil hne
  constructor
  · intro h
    rw [calc_statImpacts_cons, calc_fairAAV_cons, calc_baselineAAV_cons,
      rawImpactSum_scaleImpacts]
    unfold impactScale
    rw [if_pos h, mul_comm, div_mul_cancel₀ _ h]
  · intro h
    refine ⟨?_, ?_⟩
    · rw [calc_fairAAV_cons, calc_baselineAAV_cons]
      unfold impactScale
      rw [if_neg (fun hh => hh h)]
    · rw [calc_statImpacts_cons]
      have hs : impactScale
          (baselineAAV infl (c :: t)
              * aavMultiplier adjAAV (statComparisons subject pt (c :: t) weights)
            - baselineAAV infl (c :: t))
          (rawImpactSum (naiveImpacts (baselineAAV infl (c :: t)) 0
            (statComparisons subject pt (c :: t) weights))) = 1 := by
        unfold impactScale
        rw [if_neg (fun hh => hh h)]
      rw [hs, scaleImpacts_one]

/-- Witness for C1 at the example input with weights `exW1`: the naive sum is
`3 ≠ 0` and the scaled impacts sum exactly to `fairAAV − baselineAAV`. -/
theorem C1_scaled_impact_sum_witness :
    rawImpactSum (naiveImpacts (baselineAAV 0 [exComp]) 0
        (statComparisons exSubject false [exComp] exW1)) ≠ 0
    ∧ rawImpactSum (calculations exSubject false [exComp] exW1 true true 0).statImpacts
        = (calculations exSubject false [exComp] exW1 true true 0).fairAAV
          - (calculations exSubject false [exComp] exW1 true true 0).baselineAAV :=
  ⟨by rw [naive_exW1_sum]; norm_num,
   (C1_scaled_impact_sum exSubject false [exComp] exW1 true true 0 (by simp)
      (fun k => by simp only [exW1]; split <;> norm_num)
      (by norm_num [firstKey, exW1])).1
    (by rw [naive_exW1_sum]; norm_num)⟩

/-- Counterexample to C1 as stated: at the example input with weights `exW`
the naive impact sum is `0`, so the scale factor stays `1` and the scaled
impacts sum to `0`, yet `fairAAV − baselineAAV = −1.4` (the clamped multiplier
is `113/120`).  All intermediate values here are exact dyadic doubles except
the final multiplier, so the source takes the same `rawImpactSum === 0`
branch. -/
theorem C1_counterexample :
    rawImpactSum (calculations exSubject false [exComp] exW true true 0).statImpacts = 0
    ∧ (calculations exSubject false [exComp] exW true true 0).fairAAV
        - (calculations exSubject false [exComp] exW true true 0).baselineAAV = -(7/5)
    ∧ (0 : ℚ) ≠ -(7/5) := by
  refine ⟨?_, ?_, by norm_num⟩
  · rw [calc_statImpacts_cons, rawImpactSum_scaleImpacts, naive_exW_sum, zero_mul]
  · rw [calc_fairAAV_cons, calc_baselineAAV_cons, baselineAAV_exComp, mult_exW]
    norm_num

/-- C2 (amended).  For every non-empty cohort and every non-negative weight
assignment with a positive first weight, the naive per-stat dollar impact of
the stat at position `i` equals
`baselineAAV × ((ratio−1)×weight) / W`, where `W` is the RUNNING total of the
weights of the stats up to and including position `i` in configuration order —
not the total of all stats' weights, which is the denominator only for the
last stat. -/
theorem C2_naive_impact_formula (subject : Stats) (pt : Bool) (comps : List Player)
    (weights : ConfigKey → ℚ) (infl : ℚ)
    (hne : comps ≠ []) (hw : ∀ k, 0 ≤ weights k) (h1 : 0 < weights (firstKey pt)) :
    ∀ i : ℕ, i < (statComparisons subject pt comps weights).length →
      ((naiveImpacts (baselineAAV infl comps) 0
          (statComparisons subject pt comps weights)).map Impact.aavImpact).getD i 0
        = baselineAAV infl comps
          * ((((statComparisons subject pt comps weights).map Comparison.ratio).getD i 0 - 1)
              * (((statComparisons subject pt comps weights).map Comparison.weight).getD i 0))
          / (((statComparisons subject pt comps weights).take (i + 1)).map
              Comparison.weight).sum := by
  intro i h
  have hh := naiveImpacts_getD (baselineAAV infl comps)
    (statComparisons subject pt comps weights) 0 i h
  rw [zero_add] at hh
  exact hh

/-- Witness for C2 at the example input with weights `exW1`, position `2`
(OPS): the running-total formula gives the naive impact `24·(1/4)/2 = 3`. -/
theorem C2_naive_impact_formula_witness :
    ((naiveImpacts (baselineAAV 0 [exComp]) 0
        (statComparisons exSubject false [exComp] exW1)).map Impact.aavImpact).getD 2 0
      = baselineAAV 0 [exComp]
        * ((((statComparisons exSubject false [exComp] exW1).map Comparison.ratio).getD 2 0 - 1)
            * (((statComparisons exSubject false [exComp] exW1).map Comparison.weight).getD 2 0))
        / (((statComparisons exSubject false [exComp] exW1).take (2 + 1)).map
            Comparison.weight).sum
    ∧ ((naiveImpacts (baselineAAV 0 [exComp]) 0
        (statComparisons exSubject false [exComp] exW1)).map Impact.aavImpact).getD 2 0 = 3 := by
  constructor
  · exact C2_naive_impact_formula exSubject false [exComp] exW1 0 (by simp)
      (fun k => by simp only [exW1]; split <;> norm_num)
      (by norm_num [firstKey, exW1]) 2
      (by rw [exComparisons_exW1]; norm_num)
  · rw [exComparisons_exW1, baselineAAV_exComp]
    norm_num [naiveImpacts, zrow]

/-- Counterexample to C2 as stated: at the example input with weights `exW`
the naive impact of OPS (position `2`) is `24·(1/4)/2 = 3` in the code, while
the claimed formula with the full weight total `Σweight = 3` gives
`24·(1/4)/3 = 2`. -/
theorem C2_counterexample :
    ((naiveImpacts (baselineAAV 0 [exComp]) 0
        (statComparisons exSubject false [exComp] exW)).map Impact.aavImpact).getD 2 0 = 3
    ∧ specNaiveImpact (baselineAAV 0 [exComp])
        (((statComparisons exSubject false [exComp] exW).map Comparison.ratio).getD 2 0)
        (((statComparisons exSubject false [exComp] exW).map Comparison.weight).getD 2 0)
        (totalWeight (statComparisons exSubject false [exComp] exW)) = 2
    ∧ (3 : ℚ) ≠ 2 := by
  refine ⟨?_, ?_, by norm_num⟩
  · rw [exComparisons_exW, baselineAAV_exComp]
    norm_num [naiveImpacts, zrow]
  · rw [exComparisons_exW, baselineAAV_exComp]
    norm_num [specNaiveImpact, totalWeight, zrow]

/-- C3 (amended).  For every non-empty cohort and every weight assignment with
a POSITIVE total weight (so that `weightedSum / totalWeight` is not `0/0`,
which in the source is `NaN`), the aggregate multiplier lies in `[0.50, 2.0]`
when AAV adjustment is enabled, equals exactly `1.0` when it is disabled, and
`fairAAV = baselineAAV × aavMultiplier` for either toggle state. -/
theorem C3_multiplier_bounds (subject : Stats) (pt : Bool) (comps : List Player)
    (weights : ConfigKey → ℚ) (adjYears : Bool) (infl : ℚ)
    (hne : comps ≠ [])
    (hW : 0 < totalWeight (statComparisons subject pt comps weights)) :
    (1/2 ≤ (calculations subject pt comps weights true adjYears infl).aavMultiplier
      ∧ (calculations subject pt comps weights true adjYears infl).aavMultiplier ≤ 2)
    ∧ (calculations subject pt comps weights false adjYears infl).aavMultiplier = 1
    ∧ ∀ adjAAV : Bool,
        (calculations subject pt comps weights adjAAV adjYears infl).fairAAV
          = (calculations subject pt comps weights adjAAV adjYears infl).baselineAAV
            * (calculations subject pt comps weights adjAAV adjYears infl).aavMultiplier := by
  obtain ⟨c, t, rfl⟩ := List.exists_cons_of_ne_nil hne
  refine ⟨?_, ?_, ?_⟩
  · rw [calc_mult_cons]
    exact ⟨le_jsClamp _ _ _, jsClamp_le _ _ _ (by norm_num)⟩
  · rw [calc_mult_cons]; rfl
  · intro adjAAV
    rw [calc_fairAAV_cons, calc_baselineAAV_cons, calc_mult_cons]

/-- Witness for C3 at the example input with weights `exW1` (total weight `2`):
the enabled multiplier is within the bounds and the disabled one is `1`. -/
theorem C3_multiplier_bounds_witness :
    (1/2 ≤ (calculations exSubject false [exComp] exW1 true true 0).aavMultiplier
      ∧ (calculations exSubject false [exComp] exW1 true true 0).aavMultiplier ≤ 2)
    ∧ (calculations exSubject false [exComp] exW1 false true 0).aavMultiplier = 1 :=
  ⟨(C3_multiplier_bounds exSubject false [exComp] exW1 true 0 (by simp)
      (by rw [tw_exW1]; norm_num)).1,
   (C3_multiplier_bounds exSubject false [exComp] exW1 true 0 (by simp)
      (by rw [tw_exW1]; norm_num)).2.1⟩

/-- Counterexample to C3 as stated: with the all-zero weight assignment (every
slider at its minimum `0`) the source computes `0/0 = NaN` for the raw
multiplier, the clamp propagates the `NaN`, and the enabled multiplier is
`NaN` — not a number in `[0.50, 2.0]`. -/
theorem C3_counterexample :
    jsAavMultiplier true (statComparisons exSubject false [exComp] (fun _ => 0)) = none
    ∧ ¬ ∃ q : ℚ,
        jsAavMultiplier true (statComparisons exSubject false [exComp] (fun _ => 0)) = some q
        ∧ 1/2 ≤ q ∧ q ≤ 2 := by
  have hW : totalWeight (statComparisons exSubject false [exComp] (fun _ => 0)) = 0 := by
    norm_num [totalWeight, statComparisons, activeKeys, hitterKeys, mkComparison_weight]
  have hS : weightedSum (statComparisons exSubject false [exComp] (fun _ => 0)) = 0 := by
    have hww : ∀ k : ConfigKey,
        (mkComparison exSubject [exComp] (fun _ => 0) k).ratio
          * (mkComparison exSubject [exComp] (fun _ => 0) k).weight = 0 := by
      intro k; rw [mkComparison_weight]; ring
    norm_num [weightedSum, statComparisons, activeKeys, hitterKeys, hww]
  have h0 : jsAavMultiplier true
      (statComparisons exSubject false [exComp] (fun _ => 0)) = none := by
    simp [jsAavMultiplier, hW, hS]
  refine ⟨h0, ?_⟩
  rintro ⟨q, hq, _⟩
  rw [h0] at hq
  exact Option.noConfusion hq

/-- C4 (amended).  For every weight assignment with a POSITIVE total weight
(so that the multiplier feeding the years chain is not the source's
`0/0 = NaN`, which would propagate through `performanceAdjustment`,
`Math.round` and `Math.max` and make `fairYears` itself `NaN`), the returned
`fairYears` is an integer multiple of `0.5`; it is `≥ 1` for every NON-EMPTY
cohort selection, while the empty selection returns the default
`fairYears = 0`, which is below the floor of 1.  Under the hypothesis every
division reaching `fairYears` has a non-zero denominator, so the rational
model matches the IEEE computation. -/
theorem C4_fair_years (subject : Stats) (pt : Bool) (comps : List Player)
    (weights : ConfigKey → ℚ) (adjAAV adjYears : Bool) (infl : ℚ)
    (hW : 0 < totalWeight (statComparisons subject pt comps weights)) :
    (∃ k : ℤ, (calculations subject pt comps weights adjAAV adjYears infl).fairYears
        = (k : ℚ)/2)
    ∧ (comps ≠ [] →
        1 ≤ (calculations subject pt comps weights adjAAV adjYears infl).fairYears) := by
  cases comps with
  | nil =>
    have h0 : (calculations subject pt [] weights adjAAV adjYears infl).fairYears = 0 := rfl
    refine ⟨⟨0, ?_⟩, fun h => absurd rfl h⟩
    rw [h0]; norm_num
  | cons c t =>
    rw [calc_fairYears_cons]
    exact ⟨fairYears_half _ _ _, fun _ => fairYears_ge_one _ _ _⟩

/-- Witness for C4 at the example one-comp cohort with weights `exW`
(total weight `3 > 0`). -/
theorem C4_fair_years_witness :
    (∃ k : ℤ, (calculations exSubject false [exComp] exW true true 0).fairYears = (k : ℚ)/2)
    ∧ 1 ≤ (calculations exSubject false [exComp] exW true true 0).fairYears :=
  ⟨(C4_fair_years exSubject false [exComp] exW true true 0
      (by rw [tw_exW]; norm_num)).1,
   (C4_fair_years exSubject false [exComp] exW true true 0
      (by rw [tw_exW]; norm_num)).2 (by simp)⟩

/-- Counterexample to C4 as stated ("for every input, including the empty
cohort, fairYears ≥ 1"): the empty selection returns `fairYears = 0 < 1`. -/
theorem C4_counterexample :
    ¬ 1 ≤ (calculations exSubject false [] exW true true 0).fairYears := by
  have h0 : (calculations exSubject false [] exW true true 0).fairYears = 0 := rfl
  rw [h0]; norm_num

/-- C5 (confirmed).  When the active cohort is empty the valuation returns the
all-zero/neutral default result: zero baseline and fair AAV/years, neutral
multiplier `1`, zero years adjustment, empty comparison and impact lists, and
an empty cohort-stats object (each of whose fields reads back as `0`).  The
model is a total function, mirroring that the source raises no exception on
this branch. -/
theorem C5_empty_cohort_defaults (subject : Stats) (pt : Bool)
    (weights : ConfigKey → ℚ) (adjAAV adjYears : Bool) (infl : ℚ) :
    (calculations subject pt [] weights adjAAV adjYears infl).baselineAAV = 0
    ∧ (calculations subject pt [] weights adjAAV adjYears infl).baselineYears = 0
    ∧ (calculations subject pt [] weights adjAAV adjYears infl).fairAAV = 0
    ∧ (calculations subject pt [] weights adjAAV adjYears infl).fairYears = 0
    ∧ (calculations subject pt [] weights adjAAV adjYears infl).aavMultiplier = 1
    ∧ (calculations subject pt [] weights adjAAV adjYears infl).yearsAdjustment = 0
    ∧ (calculations subject pt [] weights adjAAV adjYears infl).statComparisons = []
    ∧ (calculations subject pt [] weights adjAAV adjYears infl).statImpacts = []
    ∧ ∀ k, (calculations subject pt [] weights adjAAV adjYears infl).cohortStats k = 0 :=
  ⟨rfl, rfl, rfl, rfl, rfl, rfl, rfl, rfl, fun _ => rfl⟩

/-- C6 (confirmed).  For every non-empty cohort whose recorded signing years
are genuine (not the falsy number `0`) and every inflation rate, each comp's
adjusted AAV is `AAV × (1 + max(0, r)/100) ^ max(0, presentYear − signedYear)`
with exponent `0` when `signedYear` is absent, and the valuation's
`baselineAAV` is the arithmetic mean of the adjusted AAVs. -/
theorem C6_adjusted_aav (infl : ℚ) (comps : List Player) (hne : comps ≠ [])
    (hy : ∀ c ∈ comps, c.signedYear ≠ some 0) :
    comps.map (adjustedAAV infl)
      = comps.map (fun c => c.AAV * (1 + max 0 infl / 100) ^ specExponent c)
    ∧ ∀ (subject : Stats) (pt : Bool) (weights : ConfigKey → ℚ) (adjAAV adjYears : Bool),
        (calculations subject pt comps weights adjAAV adjYears infl).baselineAAV
          = (comps.map (adjustedAAV infl)).sum / comps.length := by
  constructor
  · apply List.map_congr_left
    intro c hc
    unfold adjustedAAV inflationRate yearsSinceSigning specExponent
    cases hsy : c.signedYear with
    | none => rfl
    | some yy =>
      have hyy : yy ≠ 0 := by
        intro h
        exact hy c hc (by rw [hsy, h])
      simp [hyy]
  · intro subject pt weights adjAAV adjYears
    obtain ⟨c, t, rfl⟩ := List.exists_cons_of_ne_nil hne
    rw [calc_baselineAAV_cons]
    unfold baselineAAV listMean
    rw [List.length_map]

/-- Witness for C6 at the claim's worked example: one comp with AAV `20`
signed in `2023` under `4%` inflation gives
`adjustedAAV = 20 × 1.04² = 21.632 = 2704/125`, and `baselineAAV = 21.632`. -/
theorem C6_adjusted_aav_witness :
    [exC6comp].map (adjustedAAV 4)
      = [exC6comp].map (fun c => c.AAV * (1 + max 0 (4:ℚ) / 100) ^ specExponent c)
    ∧ (calculations exSubject false [exC6comp] exW true true 4).baselineAAV = 2704/125 := by
  have h := C6_adjusted_aav 4 [exC6comp] (by simp)
    (by intro c hc; simp only [List.mem_singleton] at hc; rw [hc]; simp [exC6comp])
  refine ⟨h.1, ?_⟩
  rw [h.2 exSubject false exW true true]
  norm_num +decide [adjustedAAV, inflationRate, yearsSinceSigning, exC6comp, presentYear,
    show Int.toNat 2 = 2 from rfl]

/-- C7 (model of the fetch at lines 480–507 over possibly-missing fields).
Every statistical field consumed by the comparator defaults to `0` when
missing — for the subject on every NON-home-run key, and for cohort members
on every key including home runs — but the subject's home-run special case
`Math.round(PETE_STATS.HRperPA)` has no default: a missing `HRperPA` yields
`NaN` (`none`), not `0`, contradicting the claim. -/
theorem C7_missing_field_defaults :
    (∀ k, peteValueFetch (fun _ => none) k = if isHRKey k then none else some 0)
    ∧ ∀ k, cohortStatFetch [fun _ => none] k = 0 := by
  constructor
  · intro k
    by_cases h : isHRKey k
    · rw [if_pos h]
      simp [peteValueFetch, h]
    · rw [if_neg h]
      simp [peteValueFetch, h]
  · intro k
    by_cases h : isHRKey k <;>
      simp [cohortStatFetch, h, listMean, jround_zero]

/-- C8 (confirmed).  For every tracked statistic and every pair of
subject/cohort values, the comparator's ratio lies within `[0.1, 10]` for
higher-is-better and lower-is-better stats and within `[0.5, 2.0]` for the
defensive/base-running stats `fg_Def` and `fg_BsR`. -/
theorem C8_ratio_bounds (k : ConfigKey) (pv cv : ℚ) :
    if k = ConfigKey.fgDef ∨ k = ConfigKey.fgBsR
    then 1/2 ≤ ratioOf k pv cv ∧ ratioOf k pv cv ≤ 2
    else 1/10 ≤ ratioOf k pv cv ∧ ratioOf k pv cv ≤ 10 := by
  by_cases h : k = ConfigKey.fgDef ∨ k = ConfigKey.fgBsR
  · rw [if_pos h]
    unfold ratioOf
    rw [if_pos h]
    exact ⟨le_jsClamp _ _ _, jsClamp_le _ _ _ (by norm_num)⟩
  · rw [if_neg h]
    unfold ratioOf
    rw [if_neg h]
    by_cases h2 : higherBetter k = true
    · rw [if_pos h2]
      exact ⟨le_jsClamp _ _ _, jsClamp_le _ _ _ (by norm_num)⟩
    · rw [if_neg h2]
      exact ⟨le_jsClamp _ _ _, jsClamp_le _ _ _ (by norm_num)⟩

/-- C9 (amended).  For every non-empty cohort, when the adjust-years toggle is
off the total years adjustment is `0` and
`fairYears = max(1, round(baselineYears × 2)/2)` — the baseline years rounded
to the nearest half year with the floor of 1 still applied; the floor binds
exactly when the rounded baseline is below `1`. -/
theorem C9_adjust_years_off (subject : Stats) (pt : Bool) (comps : List Player)
    (weights : ConfigKey → ℚ) (adjAAV : Bool) (infl : ℚ) (hne : comps ≠ []) :
    (calculations subject pt comps weights adjAAV false infl).yearsAdjustment = 0
    ∧ (calculations subject pt comps weights adjAAV false infl).fairYears
        = max 1 ((jround (baselineYears comps * 2) : ℚ) / 2) := by
  obtain ⟨c, t, rfl⟩ := List.exists_cons_of_ne_nil hne
  refine ⟨?_, ?_⟩
  · rw [calc_yearsAdjustment_cons]
    rfl
  · rw [calc_fairYears_cons]
    have h0 : totalYearsAdjustment false (baselineYears (c :: t))
        (ageMultiplier
          (isVeryYoungHighPerformer (subject StatField.age)
            (aavMultiplier adjAAV (statComparisons subject pt (c :: t) weights)))
          (rawAgeMultiplier pt
            (subject StatField.age - cohortSigningAge (c :: t) (subject StatField.age))))
        (absoluteAgePenalty pt (subject StatField.age))
        (performanceAdjustment pt
          (max 0 (-(subject StatField.age - cohortSigningAge (c :: t) (subject StatField.age))))
          (aavMultiplier adjAAV (statComparisons subject pt (c :: t) weights))) = 0 := rfl
    rw [h0, fairYears_no_adjust]

/-- Witness for C9 at the example one-comp cohort (`baselineYears = 6`): with
the toggle off, the adjustment is `0` and `fairYears = 6`. -/
theorem C9_adjust_years_off_witness :
    (calculations exSubject false [exComp] exW true false 0).yearsAdjustment = 0
    ∧ (calculations exSubject false [exComp] exW true false 0).fairYears = 6 := by
  have h := C9_adjust_years_off exSubject false [exComp] exW true 0 (by simp)
  refine ⟨h.1, ?_⟩
  rw [h.2, baselineYears_exComp,
    show jround ((6:ℚ) * 2) = 12 from jround_eval _ 12 (by norm_num) (by norm_num)]
  rw [max_eq_right (by norm_num)]
  norm_num

/-- Counterexample to C9 as stated: a cohort of one comp whose contract-year
count is `0` has `baselineYears = 0`, so `round(baselineYears×2)/2 = 0`, yet
with the toggle off the code returns `fairYears = max(1, 0) = 1 ≠ 0`. -/
theorem C9_counterexample :
    (calculations exSubject false [exCompZeroYears] exW true false 0).fairYears = 1
    ∧ (jround ((calculations exSubject false [exCompZeroYears] exW
        true false 0).baselineYears * 2) : ℚ) / 2 = 0
    ∧ (1 : ℚ) ≠ 0 := by
  have hb : (calculations exSubject false [exCompZeroYears] exW
      true false 0).baselineYears = 0 := by
    rw [calc_baselineYears_cons, baselineYears_zero]
  have hj : jround ((0:ℚ) * 2) = 0 := jround_eval _ 0 (by norm_num) (by norm_num)
  refine ⟨?_, ?_, by norm_num⟩
  · rw [calc_fairYears_cons]
    have h0 : totalYearsAdjustment false (baselineYears [exCompZeroYears])
        (ageMultiplier
          (isVeryYoungHighPerformer (exSubject StatField.age)
            (aavMultiplier true (statComparisons exSubject false [exCompZeroYears] exW)))
          (rawAgeMultiplier false
            (exSubject StatField.age
              - cohortSigningAge [exCompZeroYears] (exSubject StatField.age))))
        (absoluteAgePenalty false (exSubject StatField.age))
        (performanceAdjustment false
          (max 0 (-(exSubject StatField.age
            - cohortSigningAge [exCompZeroYears] (exSubject StatField.age))))
          (aavMultiplier true (statComparisons exSubject false [exCompZeroYears] exW))) = 0 := rfl
    rw [h0, fairYears_no_adjust, baselineYears_zero, hj]
    norm_num [max_def]
  · rw [hb, hj]
    norm_num

/-- C10 (confirmed).  For the defensive/base-running stats the comparator's
ratio depends only on the difference `subject − cohort`: shifting both values
by any constant `c` leaves the ratio (hence the contribution and the dollar
impact derived from it) unchanged, and the ratio equals
`clamp(1 + (delta/10)×0.2, 0.5, 2.0)`. -/
theorem C10_def_bsr_translation (v w c : ℚ) :
    (ratioOf ConfigKey.fgDef (v + c) (w + c) = ratioOf ConfigKey.fgDef v w
      ∧ ratioOf ConfigKey.fgBsR (v + c) (w + c) = ratioOf ConfigKey.fgBsR v w)
    ∧ ratioOf ConfigKey.fgDef v w = jsClamp (1/2) 2 (1 + ((v - w) / 10) * (2/10))
    ∧ ratioOf ConfigKey.fgBsR v w = jsClamp (1/2) 2 (1 + ((v - w) / 10) * (2/10)) := by
  have hd : ∀ pv cv : ℚ, ratioOf ConfigKey.fgDef pv cv
      = jsClamp (1/2) 2 (1 + ((pv - cv) / 10) * (2/10)) := by
    intro pv cv
    unfold ratioOf
    rw [if_pos (Or.inl rfl)]
  have hb : ∀ pv cv : ℚ, ratioOf ConfigKey.fgBsR pv cv
      = jsClamp (1/2) 2 (1 + ((pv - cv) / 10) * (2/10)) := by
    intro pv cv
    unfold ratioOf
    rw [if_pos (Or.inr rfl)]
  refine ⟨⟨?_, ?_⟩, hd v w, hb v w⟩
  · rw [hd, hd]
    congr 2
    ring
  · rw [hb, hb]
    congr 2
    ring
